import Mathlib

/-
Verification of the whisper-stt-local-server core (src/main_stt.py) against
its natural-language specification.

The embedding models the three functions of the source file:
  - run_transcription_fast_lane  (lines 77-87)
  - run_transcription_slow_lane  (lines 89-125)
  - create_transcription         (lines 127-153)
together with the filesystem effects they perform, the threading.Lock
admission permit, and the Python exception messages that reach the caller
through `HTTPException(status_code=500, detail=str(e))`.

Filesystem state is an association list from paths to file contents; file
contents are either raw audio bytes, a serialized JSON mapping, or
unparseable data (so that `json.load` is modelled as succeeding exactly on
serialized mappings).  External nondeterminism is passed in explicitly: the
hot engine is a function from its call arguments to a normal or exceptional
outcome, the cold worker is a record of exit code / captured stderr / what
it writes, and `os.remove` failures are an oracle from paths to an optional
raised message.  Decoding temperature is an opaque pass-through value and is
represented by its string rendering.
-/

set_option maxRecDepth 100000

namespace WhisperSTT

deriving instance DecidableEq for Except

/-- Result mapping returned by the engine or parsed from the worker's JSON
output: an opaque string-keyed mapping with (at least, on success) a `text`
field.  Auxiliary values are treated opaquely as strings. -/
abbrev ResultMap := List (String × String)

/-- Python dict lookup `m[k]` on a result mapping, `none` when the key is
missing (a KeyError in the source). -/
def mLookup : ResultMap → String → Option String
  | [], _ => none
  | e :: rest, k => if e.1 = k then some e.2 else mLookup rest k

/-- Contents of a file in the filesystem model. -/
inductive Content where
  | bytes (b : String)
  | jsonMap (m : ResultMap)
  | garbage (s : String)
  deriving DecidableEq

/-- Filesystem state: an association list from absolute paths to contents. -/
abbrev FS := List (String × Content)

/-- Read the contents at a path, if the file exists. -/
def fsRead : FS → String → Option Content
  | [], _ => none
  | e :: rest, p => if e.1 = p then some e.2 else fsRead rest p

/-- Model of `os.path.exists`. -/
def fsExists (fs : FS) (p : String) : Bool :=
  (fsRead fs p).isSome

/-- Model of a successful `os.remove`: drop every entry at the path. -/
def fsRemove : FS → String → FS
  | [], _ => []
  | e :: rest, p => if e.1 = p then fsRemove rest p else e :: fsRemove rest p

/-- Model of writing a file: replace whatever was at the path. -/
def fsWrite (fs : FS) (p : String) (c : Content) : FS :=
  (p, c) :: fsRemove fs p

/-- Index of the last dot in a character list, if any. -/
def lastDotIdx : List Char → Option Nat
  | [] => none
  | c :: rest =>
    match lastDotIdx rest with
    | some i => some (i + 1)
    | none => if c = '.' then some 0 else none

/-- Model of `os.path.splitext` on a basename: split at the last dot unless
every character before it is a dot (hidden-file rule). -/
def splitext (s : String) : String × String :=
  match lastDotIdx s.data with
  | none => (s, "")
  | some i =>
    if (s.data.take i).all (fun c => c = '.') then (s, "")
    else (String.mk (s.data.take i), String.mk (s.data.drop i))

/-- Helper for `basename`: keep the characters after the last slash. -/
def basenameAux : List Char → List Char → List Char
  | [], acc => acc.reverse
  | c :: rest, acc => if c = '/' then basenameAux rest [] else basenameAux rest (c :: acc)

/-- Model of `os.path.basename`. -/
def basename (p : String) : String :=
  String.mk (basenameAux p.data [])

/-- Last character of a string, if any. -/
def lastChar : List Char → Option Char
  | [] => none
  | [c] => some c
  | _ :: c :: rest => lastChar (c :: rest)

/-- Model of `os.path.join` for a two-component posix join. -/
def pathJoin (dir name : String) : String :=
  match name.data with
  | c :: _ =>
    if c = '/' then name
    else if dir = "" then name
    else if lastChar dir.data = some '/' then dir ++ name
    else dir ++ "/" ++ name
  | [] =>
    if dir = "" then name
    else if lastChar dir.data = some '/' then dir
    else dir ++ "/"

/-- Python truthiness of an optional string: `None` and `""` are falsy.
This is the test `if language:` / `if prompt:` on lines 108-109. -/
def pyTruthy : Option String → Bool
  | none => false
  | some s => if s = "" then false else true

/-- A single-quote character as a string (used in Python `repr` output). -/
def sq : String := String.mk [Char.ofNat 39]

/-- Python `repr` of one of our plain strings (no escaping needed for the
characters that occur in the modelled commands). -/
def pyRepr (s : String) : String := sq ++ s ++ sq

/-- Python `str` of a list of strings, as produced by `"%s" % cmd`. -/
def pyStrList (xs : List String) : String :=
  "[" ++ String.intercalate ", " (xs.map pyRepr) ++ "]"

/-- Message of `str(subprocess.CalledProcessError(code, cmd))` as raised by
`subprocess.run(cmd, check=True, ...)`: it names the command and the exit
status, and does not include the captured stderr. -/
def calledProcessErrorMsg (cmd : List String) (code : Nat) : String :=
  "Command " ++ sq ++ pyStrList cmd ++ sq ++ " returned non-zero exit status "
    ++ toString code ++ "."

/-- Message of `str(KeyError(k))`: the repr of the missing key. -/
def keyErrorMsg (k : String) : String := sq ++ k ++ sq

/-- Message of `str(FileNotFoundError)` raised by `open` on a missing path. -/
def fileNotFoundMsg (p : String) : String :=
  "[Errno 2] No such file or directory: " ++ sq ++ p ++ sq

/-- Message of `str(json.JSONDecodeError)` when `json.load` meets data that
is not a serialized mapping. -/
def jsonDecodeMsg : String := "Expecting value: line 1 column 1 (char 0)"

/-- Whether the pattern is a leading segment of the character list. -/
def leadsWith : List Char → List Char → Bool
  | [], _ => true
  | _ :: _, [] => false
  | a :: as, b :: bs => a = b && leadsWith as bs

/-- Whether the pattern occurs somewhere in the character list. -/
def hasSubList (pat : List Char) : List Char → Bool
  | [] => leadsWith pat []
  | c :: rest => leadsWith pat (c :: rest) || hasSubList pat rest

/-- Whether `pat` occurs as a contiguous substring of `s`. -/
def hasSub (s pat : String) : Bool := hasSubList pat.data s.data

/-- Arguments of one call to `whisper_model.transcribe` (line 84). -/
structure EngineCall where
  path : String
  language : Option String
  initial_prompt : Option String
  temperature : String
  deriving DecidableEq

/-- The hot engine: maps a call to its outcome, `Except.error msg` modelling
a raised exception with `str(e) = msg`. -/
abbrev Engine := EngineCall → Except String ResultMap

/-- Oracle for `os.remove`: `none` means the removal succeeds, `some msg`
means it raises an OSError with message `msg`. -/
abbrev RemovePolicy := String → Option String

/-- Interpreter path constant from line 41 of the source. -/
def VENV_PYTHON : String := "/usr/local/lib/whisper/bin/python"

/-- Worker script path constant from line 42 of the source. -/
def WHISPER_SCRIPT : String := "/usr/local/lib/whisper/bin/whisper"

/-- Modelled from the spec: the external cold-worker executable is not part
of src/, so its behavior is taken from the worker collaborator interface of
the spec — invoked with flags including an output directory and an output
format, it writes its result to `<outputDir>/<inputBaseName>.<ext>` exactly
when it exits with code 0; a non-zero exit produces captured stderr and no
output artifact.  `writesOutput` lets us also model a zero-exit worker that
fails to produce its artifact, and `outContent` what it writes. -/
structure Worker where
  exitCode : Nat
  stderr : String
  writesOutput : Bool
  outContent : Content

/-- Value following the first occurrence of a flag in an argument list. -/
def getFlagArg : List String → String → Option String
  | [], _ => none
  | [_], _ => none
  | a :: b :: rest, flag => if a = flag then some b else getFlagArg (b :: rest) flag

/-- Element of a list of strings at an index, defaulting to `""`. -/
def nthD : List String → Nat → String
  | [], _ => ""
  | a :: _, 0 => a
  | _ :: rest, n + 1 => nthD rest n

/-- Modelled from the spec: running the cold worker on a command list.
The worker's input path is the third command element (after the interpreter
and the script), its output directory and format come from the
`--output_dir` and `--output_format` flags, and on a zero exit that
produces output it writes `<outputDir>/<inputStem>.<format>`.  The second
component is `some msg` when `subprocess.run(..., check=True)` raises a
`CalledProcessError` because of a non-zero exit. -/
def runWorker (w : Worker) (argv : List String) (fs : FS) : FS × Option String :=
  if w.exitCode = 0 then
    if w.writesOutput then
      let inputPath := nthD argv 2
      let outDir := (getFlagArg argv "--output_dir").getD ""
      let fmt := (getFlagArg argv "--output_format").getD ""
      (fsWrite fs (pathJoin outDir ((splitext (basename inputPath)).1 ++ "." ++ fmt))
        w.outContent, none)
    else (fs, none)
  else (fs, some (calledProcessErrorMsg argv w.exitCode))

/-- The worker command list built on lines 101-109 of the source: the fixed
part, then `--language` when the language is truthy, then
`--initial_prompt` when the prompt is truthy. -/
def slowLaneCmd (t_audio modelName cacheDir temperature : String)
    (language prompt : Option String) : List String :=
  [VENV_PYTHON, WHISPER_SCRIPT, t_audio,
    "--model", modelName,
    "--output_format", "json",
    "--output_dir", cacheDir,
    "--temperature", temperature]
  ++ (if pyTruthy language then ["--language", language.getD ""] else [])
  ++ (if pyTruthy prompt then ["--initial_prompt", prompt.getD ""] else [])

/-- The result path derived on lines 116-117 of the source:
`os.path.join(MODEL_CACHE_DIR, splitext(basename(t_audio))[0] + ".json")`. -/
def slowResultPath (cacheDir t_audio : String) : String :=
  pathJoin cacheDir ((splitext (basename t_audio)).1 ++ ".json")

/-- Output of one fast-lane invocation: its outcome, the filesystem after
it, and the engine call it made. -/
structure FastOut where
  result : Except String ResultMap
  fs : FS
  call : EngineCall

/-- Embedding of `run_transcription_fast_lane` (lines 77-87 of the source):
write the audio bytes to a fresh temporary path, call the engine, and in a
`finally` block remove the temporary file if it exists — an exception
raised by `os.remove` there replaces the body's outcome, as in Python. -/
def run_transcription_fast_lane (engine : Engine) (removeFails : RemovePolicy)
    (temp_path : String) (audio_bytes : String)
    (language prompt : Option String) (temperature : String) (fs : FS) : FastOut :=
  let fs1 := fsWrite fs temp_path (Content.bytes audio_bytes)
  let call : EngineCall := ⟨temp_path, language, prompt, temperature⟩
  let body := engine call
  let fin : Except String ResultMap × FS :=
    if fsExists fs1 temp_path then
      match removeFails temp_path with
      | none => (body, fsRemove fs1 temp_path)
      | some msg => (Except.error msg, fs1)
    else (body, fs1)
  ⟨fin.1, fin.2, call⟩

/-- Output of one slow-lane invocation: its outcome, the filesystem after
it, and the worker command it built. -/
structure SlowOut where
  result : Except String ResultMap
  fs : FS
  argv : List String

/-- Line 124 of the source: remove the result artifact if `r_path` was
assigned and the file exists; a raised removal error replaces the outcome. -/
def slowFinallyStep2 (removeFails : RemovePolicy) (r_path : String) (rPathSet : Bool)
    (body : Except String ResultMap) (fs : FS) : Except String ResultMap × FS :=
  if rPathSet && fsExists fs r_path then
    match removeFails r_path with
    | some msg => (Except.error msg, fs)
    | none => (body, fsRemove fs r_path)
  else (body, fs)

/-- Lines 122-124 of the source: the slow lane's `finally` block.  If
removing the input artifact raises, line 124 never runs and the raised
message replaces the body's outcome, as in Python. -/
def slowFinally (removeFails : RemovePolicy) (t_audio r_path : String) (rPathSet : Bool)
    (body : Except String ResultMap) (fs : FS) : Except String ResultMap × FS :=
  if fsExists fs t_audio then
    match removeFails t_audio with
    | some msg => (Except.error msg, fs)
    | none => slowFinallyStep2 removeFails r_path rPathSet body (fsRemove fs t_audio)
  else slowFinallyStep2 removeFails r_path rPathSet body fs

/-- Embedding of `run_transcription_slow_lane` (lines 89-125 of the
source): stage the audio bytes in the cache directory, build and run the
worker command, derive the result path from the input's base name, read and
parse it, and clean both artifacts up in a `finally` block.  `r_path` is
only assigned (line 117) after a zero worker exit, so the `finally` block's
`if r_path` test is modelled by `rPathSet`. -/
def run_transcription_slow_lane (w : Worker) (removeFails : RemovePolicy)
    (modelName cacheDir : String) (t_audio : String) (audio_bytes : String)
    (language prompt : Option String) (temperature : String) (fs : FS) : SlowOut :=
  let fs1 := fsWrite fs t_audio (Content.bytes audio_bytes)
  let cmd := slowLaneCmd t_audio modelName cacheDir temperature language prompt
  let wr := runWorker w cmd fs1
  let r_path := slowResultPath cacheDir t_audio
  let bodyAndSet : Except String ResultMap × Bool :=
    match wr.2 with
    | some msg => (Except.error msg, false)
    | none =>
      match fsRead wr.1 r_path with
      | none => (Except.error (fileNotFoundMsg r_path), true)
      | some (Content.jsonMap m) => (Except.ok m, true)
      | some (Content.bytes _) => (Except.error jsonDecodeMsg, true)
      | some (Content.garbage _) => (Except.error jsonDecodeMsg, true)
  let fin := slowFinally removeFails t_audio r_path bodyAndSet.2 bodyAndSet.1 wr.1
  ⟨fin.1, fin.2, cmd⟩

/-- One transcription request as received by the endpoint, with the audio
already read and the response format defaulted to `"json"` by the form
declaration on line 132. -/
structure Req where
  audio : String
  language : Option String
  prompt : Option String
  response_format : String
  temperature : String

/-- Body of a successful endpoint response: bare text or the full mapping. -/
inductive RespBody where
  | textBody (s : String)
  | jsonBody (m : ResultMap)
  deriving DecidableEq

/-- An `HTTPException` as raised by the endpoint. -/
structure HTTPError where
  status : Nat
  detail : String
  deriving DecidableEq

/-- Line 149 of the source:
`res["text"] if response_format == "text" else res`; the KeyError raised
when the mapping lacks `text` carries `str(e) = "..."`, the repr of the
key. -/
def formatResponse (response_format : String) (m : ResultMap) : Except String RespBody :=
  if response_format = "text" then
    match mLookup m "text" with
    | some t => Except.ok (RespBody.textBody t)
    | none => Except.error (keyErrorMsg "text")
  else Except.ok (RespBody.jsonBody m)

/-- Lines 149-151 of the source: format a lane outcome, wrapping any raised
message into `HTTPException(status_code=500, detail=str(e))`. -/
def wrapResult (response_format : String) (r : Except String ResultMap) :
    Except HTTPError RespBody :=
  match r with
  | Except.ok m =>
    match formatResponse response_format m with
    | Except.ok b => Except.ok b
    | Except.error msg => Except.error ⟨500, msg⟩
  | Except.error msg => Except.error ⟨500, msg⟩

/-- Detail string of an error response, `""` on success. -/
def respDetail : Except HTTPError RespBody → String
  | Except.error e => e.detail
  | Except.ok _ => ""

/-- Whether the endpoint outcome is an error response. -/
def respIsError : Except HTTPError RespBody → Bool
  | Except.error _ => true
  | Except.ok _ => false

/-- Observable events of one dispatch, in order: the non-blocking permit
acquisition attempt with its outcome, the hot-engine execution, the permit
release, and the spawning of a cold worker. -/
inductive Ev where
  | acquire (ok : Bool)
  | release
  | engineRun
  | spawnWorker
  deriving DecidableEq

/-- Output of one dispatch: the response, the admission permit state after
the request, the filesystem after it, and the ordered event trace. -/
structure DispatchOut where
  response : Except HTTPError RespBody
  lockHeld : Bool
  fs : FS
  events : List Ev

/-- Embedding of the `create_transcription` endpoint (lines 127-153 of the
source).  `whisper_model` is `none` exactly when model loading failed at
startup (line 68).  `lockHeld` is the admission permit state at dispatch
time: `model_lock.acquire(blocking=False)` succeeds exactly when it is
free, and on success the permit is released in the inner `finally` (line
144) before the response is formatted on line 149. -/
def create_transcription (whisper_model : Option Engine) (w : Worker)
    (removeFails : RemovePolicy) (modelName cacheDir : String)
    (fastTempPath slowAudioPath : String) (req : Req)
    (lockHeld : Bool) (fs : FS) : DispatchOut :=
  match whisper_model with
  | none => ⟨Except.error ⟨500, "Model not loaded."⟩, lockHeld, fs, []⟩
  | some engine =>
    if lockHeld then
      let out := run_transcription_slow_lane w removeFails modelName cacheDir
        slowAudioPath req.audio req.language req.prompt req.temperature fs
      ⟨wrapResult req.response_format out.result, true, out.fs,
        [Ev.acquire false, Ev.spawnWorker]⟩
    else
      let out := run_transcription_fast_lane engine removeFails fastTempPath
        req.audio req.language req.prompt req.temperature fs
      ⟨wrapResult req.response_format out.result, false, out.fs,
        [Ev.acquire true, Ev.engineRun, Ev.release]⟩

/-! Helper lemmas about the filesystem model and the worker command. -/

theorem fsRead_remove_self (fs : FS) (p : String) :
    fsRead (fsRemove fs p) p = none := by
  induction fs with
  | nil => rfl
  | cons e rest ih =>
    by_cases h : e.1 = p
    · simp [fsRemove, h, ih]
    · simp [fsRemove, fsRead, h, ih]

theorem fsRead_remove_ne (fs : FS) (p q : String) (h : p ≠ q) :
    fsRead (fsRemove fs p) q = fsRead fs q := by
  induction fs with
  | nil => rfl
  | cons e rest ih =>
    by_cases he : e.1 = p
    · have hq : e.1 ≠ q := by rw [he]; exact h
      simp [fsRemove, fsRead, he, hq, h, ih]
    · simp [fsRemove, fsRead, he, ih]

theorem fsRead_write_self (fs : FS) (p : String) (c : Content) :
    fsRead (fsWrite fs p c) p = some c := by
  simp [fsWrite, fsRead]

theorem fsRead_write_ne (fs : FS) (p q : String) (c : Content) (h : p ≠ q) :
    fsRead (fsWrite fs p c) q = fsRead fs q := by
  simp [fsWrite, fsRead, h, fsRead_remove_ne fs p q h]

theorem fsExists_write_self (fs : FS) (p : String) (c : Content) :
    fsExists (fsWrite fs p c) p = true := by
  simp [fsExists, fsRead_write_self]

theorem fsExists_write_ne (fs : FS) (p q : String) (c : Content) (h : p ≠ q) :
    fsExists (fsWrite fs p c) q = fsExists fs q := by
  simp [fsExists, fsRead_write_ne fs p q c h]

theorem fsExists_remove_self (fs : FS) (p : String) :
    fsExists (fsRemove fs p) p = false := by
  simp [fsExists, fsRead_remove_self]

theorem fsExists_remove_ne (fs : FS) (p q : String) (h : p ≠ q) :
    fsExists (fsRemove fs p) q = fsExists fs q := by
  simp [fsExists, fsRead_remove_ne fs p q h]

theorem getFlagArg_slowLaneCmd_outdir (t_audio mn cd temp : String)
    (lang prompt : Option String)
    (h1 : t_audio ≠ "--output_dir") (h2 : mn ≠ "--output_dir") :
    getFlagArg (slowLaneCmd t_audio mn cd temp lang prompt) "--output_dir" = some cd := by
  simp [slowLaneCmd, getFlagArg, VENV_PYTHON, WHISPER_SCRIPT, h1, h2]

theorem getFlagArg_slowLaneCmd_outfmt (t_audio mn cd temp : String)
    (lang prompt : Option String)
    (h1 : t_audio ≠ "--output_format") (h2 : mn ≠ "--output_format") :
    getFlagArg (slowLaneCmd t_audio mn cd temp lang prompt) "--output_format" = some "json" := by
  simp [slowLaneCmd, getFlagArg, VENV_PYTHON, WHISPER_SCRIPT, h1, h2]

theorem nthD_slowLaneCmd_two (t_audio mn cd temp : String) (lang prompt : Option String) :
    nthD (slowLaneCmd t_audio mn cd temp lang prompt) 2 = t_audio := by
  simp [slowLaneCmd, nthD]

/-- On the command built by the slow lane, a zero-exit worker that produces
output writes its artifact exactly at the result path the slow lane later
derives from the input's base name. -/
theorem runWorker_slowLaneCmd_writes (w : Worker) (t_audio mn cd temp : String)
    (lang prompt : Option String) (fs : FS)
    (h0 : w.exitCode = 0) (hw : w.writesOutput = true)
    (h1 : t_audio ≠ "--output_dir") (h2 : mn ≠ "--output_dir")
    (h3 : t_audio ≠ "--output_format") (h4 : mn ≠ "--output_format") :
    runWorker w (slowLaneCmd t_audio mn cd temp lang prompt) fs
      = (fsWrite fs (slowResultPath cd t_audio) w.outContent, none) := by
  have hdj : ("." : String) ++ "json" = ".json" := rfl
  simp [runWorker, h0, hw, nthD_slowLaneCmd_two,
    getFlagArg_slowLaneCmd_outdir t_audio mn cd temp lang prompt h1 h2,
    getFlagArg_slowLaneCmd_outfmt t_audio mn cd temp lang prompt h3 h4,
    slowResultPath, String.append_assoc, hdj]

/-- C1: with the engine loaded, if the admission permit is free at dispatch
time the fast lane is chosen and the permit is released exactly once after
the fast-lane executor returns or throws — the event trace is exactly one
successful non-blocking acquisition, the engine execution, then one
release, and the permit ends free; if the permit is held at dispatch time,
the slow lane is chosen and the permit's state is not modified by that
request.  This holds for every engine outcome and worker behavior. -/
theorem c1_permit_routing (engine : Engine) (w : Worker) (rfp : RemovePolicy)
    (mn cd ftp sap : String) (req : Req) (fs : FS) :
    ((create_transcription (some engine) w rfp mn cd ftp sap req false fs).events
        = [Ev.acquire true, Ev.engineRun, Ev.release]
      ∧ (create_transcription (some engine) w rfp mn cd ftp sap req false fs).lockHeld
        = false)
    ∧ ((create_transcription (some engine) w rfp mn cd ftp sap req true fs).events
        = [Ev.acquire false, Ev.spawnWorker]
      ∧ (create_transcription (some engine) w rfp mn cd ftp sap req true fs).lockHeld
        = true) :=
  ⟨⟨rfl, rfl⟩, ⟨rfl, rfl⟩⟩

/-- C2: when the hot engine handle is null, every request fails immediately
with the 500 "Model not loaded." response before attempting any lane: the
response is the error, the permit state and the filesystem are unchanged,
and the event trace is empty — the permit is never touched and no worker is
spawned. -/
theorem c2_engine_absent (w : Worker) (rfp : RemovePolicy) (mn cd ftp sap : String)
    (req : Req) (lockHeld : Bool) (fs : FS) :
    create_transcription none w rfp mn cd ftp sap req lockHeld fs
      = ⟨Except.error ⟨500, "Model not loaded."⟩, lockHeld, fs, []⟩ :=
  rfl

/-- C4: for every fast-lane invocation with functioning removal, the
temporary audio file written from the request's bytes is absent from the
filesystem afterwards on every exit path — the quantification over the
engine covers both a returned result and a raised exception — and the
engine's outcome (success or error) is propagated unchanged to the
caller. -/
theorem c4_fast_lane_cleanup (engine : Engine) (ftp audio temp : String)
    (lang prompt : Option String) (fs : FS) :
    fsExists (run_transcription_fast_lane engine (fun _ => none) ftp audio
        lang prompt temp fs).fs ftp = false
    ∧ (run_transcription_fast_lane engine (fun _ => none) ftp audio
        lang prompt temp fs).result = engine ⟨ftp, lang, prompt, temp⟩ := by
  constructor
  · simp [run_transcription_fast_lane, fsExists_write_self, fsExists_remove_self]
  · simp [run_transcription_fast_lane, fsExists_write_self]

/-- C7: for the same input, engine and parameters, the response produced
with response_format = "text" is exactly the text field of the result
mapping that the response with response_format = "json" returns in full. -/
theorem c7_text_matches_json (engine : Engine) (w : Worker) (mn cd ftp sap : String)
    (audio temp : String) (lang prompt : Option String) (fs : FS)
    (m : ResultMap) (t : String)
    (heng : engine ⟨ftp, lang, prompt, temp⟩ = Except.ok m)
    (htext : mLookup m "text" = some t) :
    (create_transcription (some engine) w (fun _ => none) mn cd ftp sap
        ⟨audio, lang, prompt, "text", temp⟩ false fs).response
      = Except.ok (RespBody.textBody t)
    ∧ (create_transcription (some engine) w (fun _ => none) mn cd ftp sap
        ⟨audio, lang, prompt, "json", temp⟩ false fs).response
      = Except.ok (RespBody.jsonBody m) := by
  constructor <;>
    simp [create_transcription, run_transcription_fast_lane, fsExists_write_self,
      wrapResult, formatResponse, heng, htext]

/-- C7 witness: concrete instance with a two-field result mapping. -/
theorem c7_text_matches_json_witness :
    (create_transcription (some (fun _ => Except.ok [("text", "hola"), ("language", "ca")]))
        ⟨0, "", false, Content.garbage ""⟩ (fun _ => none) "medium" "/opt/w" "/tmp/f1" "/opt/w/a.wav"
        ⟨"AUDIO", none, none, "text", "0.0"⟩ false []).response
      = Except.ok (RespBody.textBody "hola")
    ∧ (create_transcription (some (fun _ => Except.ok [("text", "hola"), ("language", "ca")]))
        ⟨0, "", false, Content.garbage ""⟩ (fun _ => none) "medium" "/opt/w" "/tmp/f1" "/opt/w/a.wav"
        ⟨"AUDIO", none, none, "json", "0.0"⟩ false []).response
      = Except.ok (RespBody.jsonBody [("text", "hola"), ("language", "ca")]) :=
  c7_text_matches_json (fun _ => Except.ok [("text", "hola"), ("language", "ca")])
    ⟨0, "", false, Content.garbage ""⟩ "medium" "/opt/w" "/tmp/f1" "/opt/w/a.wav"
    "AUDIO" "0.0" none none [] [("text", "hola"), ("language", "ca")] "hola"
    rfl (by decide)

/-- C9: an empty-string language or prompt makes the slow lane build the
same worker command as an absent one (the corresponding flag is omitted),
non-empty values are appended as `--language` / `--initial_prompt` flag
pairs, and the fast lane passes the optional values — empty strings
included — to the engine unchanged. -/
theorem c9_empty_optional_params (engine : Engine) (rfp : RemovePolicy)
    (t_audio mn cd temp ftp audio : String) (l p : String)
    (lg pr : Option String) (fs : FS) :
    (slowLaneCmd t_audio mn cd temp (some "") pr = slowLaneCmd t_audio mn cd temp none pr
      ∧ slowLaneCmd t_audio mn cd temp lg (some "") = slowLaneCmd t_audio mn cd temp lg none)
    ∧ (l ≠ "" → p ≠ "" →
      slowLaneCmd t_audio mn cd temp (some l) (some p)
        = slowLaneCmd t_audio mn cd temp none none ++ ["--language", l, "--initial_prompt", p])
    ∧ (run_transcription_fast_lane engine rfp ftp audio lg pr temp fs).call
        = ⟨ftp, lg, pr, temp⟩ := by
  refine ⟨⟨?_, ?_⟩, ?_, rfl⟩
  · simp [slowLaneCmd, pyTruthy]
  · simp [slowLaneCmd, pyTruthy]
  · intro hl hp
    simp [slowLaneCmd, pyTruthy, hl, hp]

/-- C9 witness: concrete command comparison for empty and non-empty
optional parameters. -/
theorem c9_empty_optional_params_witness :
    (slowLaneCmd "/opt/w/a.wav" "medium" "/opt/w" "0.0" (some "") none
        = slowLaneCmd "/opt/w/a.wav" "medium" "/opt/w" "0.0" none none
      ∧ slowLaneCmd "/opt/w/a.wav" "medium" "/opt/w" "0.0" none (some "")
        = slowLaneCmd "/opt/w/a.wav" "medium" "/opt/w" "0.0" none none)
    ∧ (("ca" : String) ≠ "" → ("hey" : String) ≠ "" →
      slowLaneCmd "/opt/w/a.wav" "medium" "/opt/w" "0.0" (some "ca") (some "hey")
        = slowLaneCmd "/opt/w/a.wav" "medium" "/opt/w" "0.0" none none
            ++ ["--language", "ca", "--initial_prompt", "hey"])
    ∧ (run_transcription_fast_lane (fun _ => Except.ok [("text", "x")]) (fun _ => none)
        "/tmp/f1" "AUDIO" none (some "") "0.0" []).call
        = ⟨"/tmp/f1", none, some "", "0.0"⟩ :=
  c9_empty_optional_params (fun _ => Except.ok [("text", "x")]) (fun _ => none)
    "/opt/w/a.wav" "medium" "/opt/w" "0.0" "/tmp/f1" "AUDIO" "ca" "hey" none (some "") []

/-- C10: every response_format other than the exact string "text" —
unrecognized values included — returns the full result mapping unchanged,
and with response_format = "text" a result mapping lacking a `text` key
turns the request into a 500 processing error carrying the KeyError
message instead of returning. -/
theorem c10_response_format_dispatch (engine : Engine) (w : Worker) (mn cd ftp sap : String)
    (audio temp : String) (lang prompt : Option String) (fs : FS)
    (m : ResultMap) (rform : String)
    (heng : engine ⟨ftp, lang, prompt, temp⟩ = Except.ok m)
    (hrf : rform ≠ "text") :
    (create_transcription (some engine) w (fun _ => none) mn cd ftp sap
        ⟨audio, lang, prompt, rform, temp⟩ false fs).response
      = Except.ok (RespBody.jsonBody m)
    ∧ (mLookup m "text" = none →
      (create_transcription (some engine) w (fun _ => none) mn cd ftp sap
          ⟨audio, lang, prompt, "text", temp⟩ false fs).response
        = Except.error ⟨500, keyErrorMsg "text"⟩) := by
  constructor
  · simp [create_transcription, run_transcription_fast_lane, fsExists_write_self,
      wrapResult, formatResponse, heng, hrf]
  · intro hnone
    simp [create_transcription, run_transcription_fast_lane, fsExists_write_self,
      wrapResult, formatResponse, heng, hnone]

/-- C10 witness: an unrecognized response_format ("srt") returns the full
mapping, and "text" on a mapping without a text key yields the KeyError
wrapped as a 500 error. -/
theorem c10_response_format_dispatch_witness :
    (create_transcription (some (fun _ => Except.ok [("segments", "none")]))
        ⟨0, "", false, Content.garbage ""⟩ (fun _ => none) "medium" "/opt/w" "/tmp/f1" "/opt/w/a.wav"
        ⟨"AUDIO", none, none, "srt", "0.0"⟩ false []).response
      = Except.ok (RespBody.jsonBody [("segments", "none")])
    ∧ (mLookup [("segments", "none")] "text" = none →
      (create_transcription (some (fun _ => Except.ok [("segments", "none")]))
          ⟨0, "", false, Content.garbage ""⟩ (fun _ => none) "medium" "/opt/w" "/tmp/f1" "/opt/w/a.wav"
          ⟨"AUDIO", none, none, "text", "0.0"⟩ false []).response
        = Except.error ⟨500, keyErrorMsg "text"⟩) :=
  c10_response_format_dispatch (fun _ => Except.ok [("segments", "none")])
    ⟨0, "", false, Content.garbage ""⟩ "medium" "/opt/w" "/tmp/f1" "/opt/w/a.wav"
    "AUDIO" "0.0" none none [] [("segments", "none")] "srt" rfl (by decide)

/-- C5 counterexample: a concrete slow-lane request whose worker exits
non-zero with captured stderr "boom" yields an error response whose message
does not contain that stderr text — `str(CalledProcessError)` only names
the command and the exit status, so the claim that the response message
contains the worker's captured stderr is false on the code. -/
theorem c5_counterexample :
    respIsError (create_transcription (some (fun _ => Except.ok [("text", "hi")]))
        ⟨1, "boom", false, Content.garbage ""⟩ (fun _ => none)
        "medium" "/opt/ai/models/speech/whisper" "/tmp/fastabc"
        "/opt/ai/models/speech/whisper/cw42.wav"
        ⟨"AUDIO", none, none, "json", "0.0"⟩ true []).response = true
    ∧ hasSub (respDetail (create_transcription (some (fun _ => Except.ok [("text", "hi")]))
        ⟨1, "boom", false, Content.garbage ""⟩ (fun _ => none)
        "medium" "/opt/ai/models/speech/whisper" "/tmp/fastabc"
        "/opt/ai/models/speech/whisper/cw42.wav"
        ⟨"AUDIO", none, none, "json", "0.0"⟩ true []).response) "boom" = false := by
  constructor
  · decide
  · decide

/-- C5 as amended: for every slow-lane request whose worker exits non-zero,
the caller receives a 500 processing-failure response whose message is the
command-and-exit-status diagnostic of the failed worker invocation (the
captured stderr is not included in it), and the input staging artifact is
still removed. -/
theorem c5_amended (engine : Engine) (w : Worker) (mn cd ftp t_audio audio temp : String)
    (lang prompt : Option String) (rform : String) (fs : FS)
    (hcode : w.exitCode ≠ 0) :
    (create_transcription (some engine) w (fun _ => none) mn cd ftp t_audio
        ⟨audio, lang, prompt, rform, temp⟩ true fs).response
      = Except.error ⟨500,
          calledProcessErrorMsg (slowLaneCmd t_audio mn cd temp lang prompt) w.exitCode⟩
    ∧ fsExists (create_transcription (some engine) w (fun _ => none) mn cd ftp t_audio
        ⟨audio, lang, prompt, rform, temp⟩ true fs).fs t_audio = false := by
  constructor <;>
    simp [create_transcription, run_transcription_slow_lane, runWorker, hcode,
      slowFinally, slowFinallyStep2, fsExists_write_self, fsExists_remove_self,
      wrapResult]

/-- C5 amended witness: concrete worker failure with exit status 1. -/
theorem c5_amended_witness :
    (create_transcription (some (fun _ => Except.ok [("text", "hi")]))
        ⟨1, "boom", false, Content.garbage ""⟩ (fun _ => none)
        "medium" "/opt/w" "/tmp/fastabc" "/opt/w/cw42.wav"
        ⟨"AUDIO", none, none, "json", "0.0"⟩ true []).response
      = Except.error ⟨500,
          calledProcessErrorMsg (slowLaneCmd "/opt/w/cw42.wav" "medium" "/opt/w" "0.0" none none) 1⟩
    ∧ fsExists (create_transcription (some (fun _ => Except.ok [("text", "hi")]))
        ⟨1, "boom", false, Content.garbage ""⟩ (fun _ => none)
        "medium" "/opt/w" "/tmp/fastabc" "/opt/w/cw42.wav"
        ⟨"AUDIO", none, none, "json", "0.0"⟩ true []).fs "/opt/w/cw42.wav" = false :=
  c5_amended (fun _ => Except.ok [("text", "hi")]) ⟨1, "boom", false, Content.garbage ""⟩
    "medium" "/opt/w" "/tmp/fastabc" "/opt/w/cw42.wav" "AUDIO" "0.0" none none "json" []
    (by decide)

/-- C8 counterexample: a concrete fast-lane request in which the engine
returns a successful result mapping but removing the temporary file raises
shows the caller receiving the cleanup error, not the already-obtained
result — the `finally` blocks of both lanes re-raise removal errors, so the
claim that cleanup failures never mask a successful result is false on the
code. -/
theorem c8_counterexample :
    (create_transcription (some (fun _ => Except.ok [("text", "hi")]))
        ⟨0, "", true, Content.jsonMap []⟩ (fun _ => some "[Errno 13] Permission denied")
        "medium" "/opt/w" "/tmp/fastabc" "/opt/w/cw42.wav"
        ⟨"AUDIO", none, none, "json", "0.0"⟩ false []).response
      = Except.error ⟨500, "[Errno 13] Permission denied"⟩ := by
  decide

/-- C8 as amended: in both lanes, a failure during artifact removal in the
`finally` cleanup replaces an already-obtained successful transcription
result: the caller receives the removal error as a 500 processing failure
instead of the result.  The fast-lane conjunct assumes the engine returned
a result mapping and removal of the temporary file raises; the slow-lane
conjunct assumes the worker exited zero and wrote a parseable result and
removal of the input artifact raises. -/
theorem c8_amended (engine : Engine) (w : Worker) (mn cd ftp t_audio audio temp : String)
    (lang prompt : Option String) (rform : String) (fs : FS)
    (m : ResultMap) (msg msg2 : String)
    (heng : engine ⟨ftp, lang, prompt, temp⟩ = Except.ok m)
    (h0 : w.exitCode = 0) (hw : w.writesOutput = true)
    (hc : w.outContent = Content.jsonMap m)
    (h1 : t_audio ≠ "--output_dir") (h2 : mn ≠ "--output_dir")
    (h3 : t_audio ≠ "--output_format") (h4 : mn ≠ "--output_format")
    (hne : t_audio ≠ slowResultPath cd t_audio) :
    (create_transcription (some engine) w (fun _ => some msg) mn cd ftp t_audio
        ⟨audio, lang, prompt, rform, temp⟩ false fs).response
      = Except.error ⟨500, msg⟩
    ∧ (create_transcription (some engine) w (fun _ => some msg2) mn cd ftp t_audio
        ⟨audio, lang, prompt, rform, temp⟩ true fs).response
      = Except.error ⟨500, msg2⟩ := by
  constructor
  · simp [create_transcription, run_transcription_fast_lane, fsExists_write_self,
      wrapResult]
  · have hrw := runWorker_slowLaneCmd_writes w t_audio mn cd temp lang prompt
      (fsWrite fs t_audio (Content.bytes audio)) h0 hw h1 h2 h3 h4
    rw [hc] at hrw
    have hex : fsExists (fsWrite (fsWrite fs t_audio (Content.bytes audio))
        (slowResultPath cd t_audio) (Content.jsonMap m)) t_audio = true := by
      rw [fsExists_write_ne _ _ _ _ (Ne.symm hne), fsExists_write_self]
    simp [create_transcription, run_transcription_slow_lane, hrw,
      slowFinally, hex, fsRead_write_self, wrapResult]

/-- C8 amended witness: concrete removal failures in both lanes. -/
theorem c8_amended_witness :
    (create_transcription (some (fun _ => Except.ok [("text", "hi")]))
        ⟨0, "", true, Content.jsonMap [("text", "hi")]⟩ (fun _ => some "[Errno 13] Permission denied")
        "medium" "/opt/w" "/tmp/fastabc" "/opt/w/cw42.wav"
        ⟨"AUDIO", none, none, "json", "0.0"⟩ false []).response
      = Except.error ⟨500, "[Errno 13] Permission denied"⟩
    ∧ (create_transcription (some (fun _ => Except.ok [("text", "hi")]))
        ⟨0, "", true, Content.jsonMap [("text", "hi")]⟩ (fun _ => some "[Errno 1] Operation not permitted")
        "medium" "/opt/w" "/tmp/fastabc" "/opt/w/cw42.wav"
        ⟨"AUDIO", none, none, "json", "0.0"⟩ true []).response
      = Except.error ⟨500, "[Errno 1] Operation not permitted"⟩ :=
  c8_amended (fun _ => Except.ok [("text", "hi")])
    ⟨0, "", true, Content.jsonMap [("text", "hi")]⟩
    "medium" "/opt/w" "/tmp/fastabc" "/opt/w/cw42.wav" "AUDIO" "0.0" none none "json" []
    [("text", "hi")] "[Errno 13] Permission denied" "[Errno 1] Operation not permitted"
    rfl rfl rfl rfl (by decide) (by decide) (by decide) (by decide) (by decide)

/-- C3: for every slow-lane invocation with functioning removal — covering
every worker behavior: success, non-zero exit, missing output, unparseable
output — neither the input staging artifact nor the output staging
artifact created by that invocation remains on the filesystem afterwards.
The freshness hypothesis says the result path was not already occupied
before the invocation, and the inequality hypotheses rule out degenerate
names colliding with the worker's flag strings or the derived result
path. -/
theorem c3_slow_lane_cleanup (w : Worker) (mn cd t_audio audio temp : String)
    (lang prompt : Option String) (fs : FS)
    (h1 : t_audio ≠ "--output_dir") (h2 : mn ≠ "--output_dir")
    (h3 : t_audio ≠ "--output_format") (h4 : mn ≠ "--output_format")
    (hne : t_audio ≠ slowResultPath cd t_audio)
    (hfresh : fsExists fs (slowResultPath cd t_audio) = false) :
    fsExists (run_transcription_slow_lane w (fun _ => none) mn cd t_audio audio
        lang prompt temp fs).fs t_audio = false
    ∧ fsExists (run_transcription_slow_lane w (fun _ => none) mn cd t_audio audio
        lang prompt temp fs).fs (slowResultPath cd t_audio) = false := by
  have hne' : slowResultPath cd t_audio ≠ t_audio := Ne.symm hne
  have hread : fsRead fs (slowResultPath cd t_audio) = none := by
    cases h : fsRead fs (slowResultPath cd t_audio) with
    | none => rfl
    | some c =>
      rw [fsExists, h] at hfresh
      simp at hfresh
  have e1 : fsExists (fsRemove (fsWrite fs t_audio (Content.bytes audio)) t_audio)
      t_audio = false := fsExists_remove_self _ _
  have e2 : fsExists (fsRemove (fsWrite fs t_audio (Content.bytes audio)) t_audio)
      (slowResultPath cd t_audio) = false := by
    rw [fsExists_remove_ne _ _ _ hne, fsExists_write_ne _ _ _ _ hne, hfresh]
  by_cases h0 : w.exitCode = 0
  · by_cases hwo : w.writesOutput = true
    · have hrw := runWorker_slowLaneCmd_writes w t_audio mn cd temp lang prompt
        (fsWrite fs t_audio (Content.bytes audio)) h0 hwo h1 h2 h3 h4
      have hex : ∀ c, fsExists (fsWrite (fsWrite fs t_audio (Content.bytes audio))
          (slowResultPath cd t_audio) c) t_audio = true := fun c => by
        rw [fsExists_write_ne _ _ _ _ hne', fsExists_write_self]
      have hex3 : ∀ c, fsExists (fsRemove (fsWrite (fsWrite fs t_audio
          (Content.bytes audio)) (slowResultPath cd t_audio) c) t_audio)
          (slowResultPath cd t_audio) = true := fun c => by
        rw [fsExists_remove_ne _ _ _ hne, fsExists_write_self]
      have g1 : ∀ c, fsExists (fsRemove (fsRemove (fsWrite (fsWrite fs t_audio
          (Content.bytes audio)) (slowResultPath cd t_audio) c) t_audio)
          (slowResultPath cd t_audio)) t_audio = false := fun c => by
        rw [fsExists_remove_ne _ _ _ hne', fsExists_remove_self]
      have g2 : ∀ c, fsExists (fsRemove (fsRemove (fsWrite (fsWrite fs t_audio
          (Content.bytes audio)) (slowResultPath cd t_audio) c) t_audio)
          (slowResultPath cd t_audio)) (slowResultPath cd t_audio) = false := fun c =>
        fsExists_remove_self _ _
      cases hoc : w.outContent <;>
        simp [run_transcription_slow_lane, hrw, hoc, slowFinally, slowFinallyStep2,
          hex, hex3, g1, g2, fsRead_write_self]
    · have hr1 : fsRead (fsWrite fs t_audio (Content.bytes audio))
          (slowResultPath cd t_audio) = none := by
        rw [fsRead_write_ne _ _ _ _ hne, hread]
      simp [run_transcription_slow_lane, runWorker, h0, hwo, slowFinally,
        slowFinallyStep2, fsExists_write_self, hr1, e1, e2]
  · simp [run_transcription_slow_lane, runWorker, h0, slowFinally,
      slowFinallyStep2, fsExists_write_self, e1, e2]

/-- C3 witness: a concrete successful slow-lane invocation leaves neither
staging artifact behind. -/
theorem c3_slow_lane_cleanup_witness :
    fsExists (run_transcription_slow_lane ⟨0, "", true, Content.jsonMap [("text", "hi")]⟩
        (fun _ => none) "medium" "/opt/w" "/opt/w/cw42.wav" "AUDIO"
        none none "0.0" []).fs "/opt/w/cw42.wav" = false
    ∧ fsExists (run_transcription_slow_lane ⟨0, "", true, Content.jsonMap [("text", "hi")]⟩
        (fun _ => none) "medium" "/opt/w" "/opt/w/cw42.wav" "AUDIO"
        none none "0.0" []).fs (slowResultPath "/opt/w" "/opt/w/cw42.wav") = false :=
  c3_slow_lane_cleanup ⟨0, "", true, Content.jsonMap [("text", "hi")]⟩
    "medium" "/opt/w" "/opt/w/cw42.wav" "AUDIO" "0.0" none none []
    (by decide) (by decide) (by decide) (by decide) (by decide) (by decide)

/-- C6: for every slow-lane invocation, the worker command carries the
staging directory as its `--output_dir` and `json` as its
`--output_format`, and when the worker honors the contract — exit code 0,
writing a parseable mapping at `<outputDir>/<inputStem>.json` — the value
the slow lane returns is exactly the parsed content of the output artifact
derived from the input artifact's base name. -/
theorem c6_output_correlation (w : Worker) (mn cd t_audio audio temp : String)
    (lang prompt : Option String) (fs : FS) (m : ResultMap)
    (h0 : w.exitCode = 0) (hw : w.writesOutput = true)
    (hc : w.outContent = Content.jsonMap m)
    (h1 : t_audio ≠ "--output_dir") (h2 : mn ≠ "--output_dir")
    (h3 : t_audio ≠ "--output_format") (h4 : mn ≠ "--output_format")
    (hne : t_audio ≠ slowResultPath cd t_audio) :
    getFlagArg (run_transcription_slow_lane w (fun _ => none) mn cd t_audio audio
        lang prompt temp fs).argv "--output_dir" = some cd
    ∧ getFlagArg (run_transcription_slow_lane w (fun _ => none) mn cd t_audio audio
        lang prompt temp fs).argv "--output_format" = some "json"
    ∧ (run_transcription_slow_lane w (fun _ => none) mn cd t_audio audio
        lang prompt temp fs).result = Except.ok m := by
  refine ⟨?_, ?_, ?_⟩
  · exact getFlagArg_slowLaneCmd_outdir t_audio mn cd temp lang prompt h1 h2
  · exact getFlagArg_slowLaneCmd_outfmt t_audio mn cd temp lang prompt h3 h4
  · have hrw := runWorker_slowLaneCmd_writes w t_audio mn cd temp lang prompt
      (fsWrite fs t_audio (Content.bytes audio)) h0 hw h1 h2 h3 h4
    rw [hc] at hrw
    have hex : fsExists (fsWrite (fsWrite fs t_audio (Content.bytes audio))
        (slowResultPath cd t_audio) (Content.jsonMap m)) t_audio = true := by
      rw [fsExists_write_ne _ _ _ _ (Ne.symm hne), fsExists_write_self]
    have hex3 : fsExists (fsRemove (fsWrite (fsWrite fs t_audio (Content.bytes audio))
        (slowResultPath cd t_audio) (Content.jsonMap m)) t_audio)
        (slowResultPath cd t_audio) = true := by
      rw [fsExists_remove_ne _ _ _ hne, fsExists_write_self]
    simp [run_transcription_slow_lane, hrw, slowFinally, slowFinallyStep2, hex, hex3,
      fsRead_write_self]

/-- C6 witness: concrete successful slow-lane invocation returning the
parsed worker output. -/
theorem c6_output_correlation_witness :
    getFlagArg (run_transcription_slow_lane ⟨0, "", true, Content.jsonMap [("text", "hi")]⟩
        (fun _ => none) "medium" "/opt/w" "/opt/w/cw42.wav" "AUDIO"
        none none "0.0" []).argv "--output_dir" = some "/opt/w"
    ∧ getFlagArg (run_transcription_slow_lane ⟨0, "", true, Content.jsonMap [("text", "hi")]⟩
        (fun _ => none) "medium" "/opt/w" "/opt/w/cw42.wav" "AUDIO"
        none none "0.0" []).argv "--output_format" = some "json"
    ∧ (run_transcription_slow_lane ⟨0, "", true, Content.jsonMap [("text", "hi")]⟩
        (fun _ => none) "medium" "/opt/w" "/opt/w/cw42.wav" "AUDIO"
        none none "0.0" []).result = Except.ok [("text", "hi")] :=
  c6_output_correlation ⟨0, "", true, Content.jsonMap [("text", "hi")]⟩
    "medium" "/opt/w" "/opt/w/cw42.wav" "AUDIO" "0.0" none none [] [("text", "hi")]
    rfl rfl rfl (by decide) (by decide) (by decide) (by decide) (by decide)

end WhisperSTT
